import Mathlib

/-!
Shallow embedding of the bellat-pdf document-generation service
(src/main.py).  Python floats are modelled as exact rationals (ℚ);
Python's round-half-to-even `round` builtin and the `:.2f` format
specifier are modelled explicitly.  External library calls that the
handler makes (num2words, the builtin float parser, jinja template
lookup/rendering, weasyprint PDF writing, str on a float, the clock)
are parameters of the embedding, collected in `RenderEnv`.
-/

namespace BellatPdf

/-- CompanyInfo pydantic model, src/main.py lines 15-23. -/
structure CompanyInfo where
  raisonSociale : String
  adresse : String
  telephone : String
  email : Option String
  nif : String
  nis : String
  rc : String
  art : Option String
deriving Repr, DecidableEq

/-- ClientInfo pydantic model, src/main.py lines 25-31. -/
structure ClientInfo where
  nom : String
  adresse : String
  telephone : Option String
  nif : Option String
  nis : Option String
  art : Option String
deriving Repr, DecidableEq

/-- DocumentInfo pydantic model, src/main.py lines 33-42. -/
structure DocumentInfo where
  numero : String
  date : String
  bonCommande : Option String
  dateLivraison : Option String
  dateEcheance : Option String
  conditions : Option String
  modePaiement : Option String
  facture : Option String
  motifGeneral : Option String
deriving Repr, DecidableEq

/-- Product pydantic model, src/main.py lines 44-51. -/
structure Product where
  designation : String
  quantite : ℚ
  unite : String
  prixUnitaire : Option ℚ
  tauxTVA : Option ℚ
  observation : Option String
  motifRetour : Option String
deriving Repr, DecidableEq

/-- Totals pydantic model, src/main.py lines 53-56. -/
structure Totals where
  totalHT : String
  totalTVA : String
  totalTTC : String
deriving Repr, DecidableEq

/-- The nine values of the closed Literal enum on the request type,
src/main.py lines 59-69. -/
def documentTypeValues : List String :=
  ["bon-livraison", "bon-commande", "facture", "facture-proforma",
   "proforma", "bon-retour", "facture-avoir", "bon-versement",
   "bon-reception"]

/-- GeneratePdfRequest pydantic model, src/main.py lines 58-75.
The `type` field is kept as a string; the Literal-enum membership check
that pydantic performs on it is modelled in `handle_generate_pdf`. -/
structure GeneratePdfRequest where
  type : String
  companyInfo : CompanyInfo
  clientInfo : ClientInfo
  documentInfo : DocumentInfo
  products : List Product
  totals : Option Totals
  logoUrl : Option String
deriving Repr, DecidableEq

/-- Python's `round` builtin on an exact value: round half to even. -/
def roundHalfEven (q : ℚ) : ℤ :=
  let f := ⌊q⌋
  let r := q - (f : ℚ)
  if r < 1 / 2 then f
  else if 1 / 2 < r then f + 1
  else if f % 2 = 0 then f else f + 1

/-- Python's `int` applied to a number: truncation toward zero. -/
def pyTrunc (q : ℚ) : ℤ := if 0 ≤ q then ⌊q⌋ else ⌈q⌉

/-- Decimal digits of a natural, padded on the left to width 2 with a
zero, as the `:.2f` format produces for the cents part. -/
def pad2 (r : ℕ) : String := (if r < 10 then "0" else "") ++ Nat.repr r

/-- Python's fixed-two-decimal format specifier `:.2f` on an exact
value: round to the nearest cent (half to even) and print with exactly
two digits after the decimal point. -/
def formatTwoDec (q : ℚ) : String :=
  let c := roundHalfEven (q * 100)
  let sign := if c < 0 then "-" else ""
  let a := c.natAbs
  sign ++ Nat.repr (a / 100) ++ "." ++ pad2 (a % 100)

/-- A string consisting of some prefix, a decimal point, and exactly
two trailing digit characters: the shape of a fixed two-decimal-place
amount. -/
def twoDecimalString (s : String) : Prop :=
  ∃ a b : String, s = a ++ "." ++ b ∧ b.length = 2

/-- get_document_title, src/main.py lines 104-117: dictionary lookup
with default "DOCUMENT", written as the equivalent decision chain (the
dict keys are pairwise distinct). -/
def get_document_title (doc_type : String) : String :=
  if doc_type = "bon-livraison" then "BON DE LIVRAISON"
  else if doc_type = "bon-commande" then "BON DE COMMANDE"
  else if doc_type = "facture" then "FACTURE"
  else if doc_type = "facture-proforma" then "FACTURE PROFORMA"
  else if doc_type = "proforma" then "FACTURE PROFORMA"
  else if doc_type = "bon-retour" then "BON DE RETOUR"
  else if doc_type = "facture-avoir" then "FACTURE AVOIR"
  else if doc_type = "bon-versement" then "BON DE VERSEMENT"
  else if doc_type = "bon-reception" then "BON DE RÉCEPTION"
  else "DOCUMENT"

/-- Fractional-cents value used by number_to_french_words,
src/main.py line 125: `int(round((n - entier) * 100))`. -/
def centimesOf (n : ℚ) : ℤ := roundHalfEven ((n - (pyTrunc n : ℚ)) * 100)

/-- Body of the `try` block of number_to_french_words, src/main.py
lines 124-133.  The external num2words library call is the parameter
`numToWords`; `none` models it raising an exception. -/
def number_to_french_words_core (numToWords : ℤ → Option String) (n : ℚ) :
    Option String :=
  let entier := pyTrunc n
  let centimes := centimesOf n
  match numToWords entier with
  | none => none
  | some we =>
    let words := we ++ " dinar" ++ (if entier > 1 ∨ entier = 0 then "s" else "")
    if 0 < centimes then
      match numToWords centimes with
      | none => none
      | some wc =>
          some (words ++ " et " ++ wc ++ " centime" ++
            (if centimes > 1 then "s" else ""))
    else some words

/-- number_to_french_words, src/main.py lines 121-135: on any internal
exception the `except` branch returns `str(n)`, modelled by the
parameter `pyStr`. -/
def number_to_french_words (numToWords : ℤ → Option String)
    (pyStr : ℚ → String) (n : ℚ) : String :=
  match number_to_french_words_core numToWords n with
  | some w => w
  | none => pyStr n

/-- Totals computation of the handler, src/main.py lines 161-174. -/
def computeTotals (products : List Product) : Totals :=
  let total_ht := (products.map fun p => p.quantite * p.prixUnitaire.getD 0).sum
  let total_tva :=
    (products.map fun p =>
      p.quantite * p.prixUnitaire.getD 0 * p.tauxTVA.getD 0 / 100).sum
  let total_ttc := total_ht + total_tva
  { totalHT := formatTwoDec total_ht
    totalTVA := formatTwoDec total_tva
    totalTTC := formatTwoDec total_ttc }

/-- The totals placed in the template context, src/main.py lines
159-174: `totals = request.totals`, then recomputed only when that is
None (falsy) and the product list is non-empty (truthy). -/
def effectiveTotals (req : GeneratePdfRequest) : Option Totals :=
  match req.totals with
  | some t => some t
  | none =>
    match req.products with
    | [] => none
    | _ => some (computeTotals req.products)

/-- The template context, src/main.py lines 188-199. -/
structure Context where
  document_title : String
  company : CompanyInfo
  client : ClientInfo
  document : DocumentInfo
  products : List Product
  totals : Option Totals
  type : String
  generated_date : String
  total_ttc_words : String
  logo_url : Option String

/-- External collaborators of the handler, passed as parameters of the
embedding: jinja template lookup (an `error` models the lookup raising,
e.g. TemplateNotFound), jinja rendering, weasyprint PDF writing, the
num2words library, the builtin float parser (`none` models a parse
exception), `str` on a float, and the formatted current time. -/
structure RenderEnv where
  getTemplate : String → Except String String
  renderTemplate : String → Context → Except String String
  writePdf : String → Except String (List ℕ)
  numToWords : ℤ → Option String
  parseFloat : String → Option ℚ
  pyStr : ℚ → String
  now : String

/-- The words-amount placed in the context, src/main.py lines 178-185:
when totals is present, parse its totalTTC (0 on a parse exception) and
convert to words; when totals is None, the literal string "zéro". -/
def totalTtcWords (env : RenderEnv) (totals : Option Totals) : String :=
  match totals with
  | some t =>
      number_to_french_words env.numToWords env.pyStr
        ((env.parseFloat t.totalTTC).getD 0)
  | none => "zéro"

/-- Context assembly of the handler, src/main.py lines 158-199. -/
def buildContext (env : RenderEnv) (req : GeneratePdfRequest) : Context :=
  let totals := effectiveTotals req
  { document_title := get_document_title req.type
    company := req.companyInfo
    client := req.clientInfo
    document := req.documentInfo
    products := req.products
    totals := totals
    type := req.type
    generated_date := env.now
    total_ttc_words := totalTtcWords env totals
    logo_url := req.logoUrl }

/-- Template selection, src/main.py lines 150-156: the inner
try/except falls back to bon-livraison.html when the type-specific
template cannot be loaded; a failure of the fallback itself propagates
to the outer handler. -/
def selectTemplate (env : RenderEnv) (req : GeneratePdfRequest) :
    Except String String :=
  match env.getTemplate (req.type ++ ".html") with
  | .ok t => .ok t
  | .error _ => env.getTemplate "bon-livraison.html"

/-- Body of the outer `try` block of generate_pdf, src/main.py lines
149-209: select template, build context, render HTML, write the PDF.
An `error` models any exception escaping the block. -/
def pdfPipeline (env : RenderEnv) (req : GeneratePdfRequest) :
    Except String (List ℕ) :=
  match selectTemplate env req with
  | .error e => .error e
  | .ok tmpl =>
    match env.renderTemplate tmpl (buildContext env req) with
    | .error e => .error e
    | .ok html => env.writePdf html

/-- Outcome of a request, src/main.py lines 146-221: a binary PDF
response with headers, the 500 HTTPException of the outer except
branch, or the schema-validation rejection issued by FastAPI/pydantic
before the handler body runs. -/
inductive PdfResult where
  | success (content : List ℕ) (mediaType : String) (contentDisposition : String)
  | httpError (status : ℕ) (detail : String)
  | validationError (detail : String)
deriving Repr, DecidableEq

/-- generate_pdf on an already-validated request, src/main.py lines
146-221: any exception of the try block becomes the single generic 500
response embedding the underlying message. -/
def generate_pdf (env : RenderEnv) (req : GeneratePdfRequest) : PdfResult :=
  match pdfPipeline env req with
  | .ok bytes =>
      .success bytes "application/pdf"
        ("attachment; filename=" ++ req.documentInfo.numero ++ ".pdf")
  | .error e => .httpError 500 ("Error generating PDF: " ++ e)

/-- Detail text of the schema-validation rejection (modelled; the
exact pydantic wording is immaterial to the claims). -/
def typeValidationDetail : String :=
  "type: input is not one of the permitted literal values"

/-- The request boundary: pydantic validates the body against the
GeneratePdfRequest schema before generate_pdf runs.  The enum check on
`type` is the Literal annotation of src/main.py lines 59-69; the
enforcement itself is performed by the FastAPI/pydantic framework, so
it is modelled here from that declaration. -/
def handle_generate_pdf (env : RenderEnv) (req : GeneratePdfRequest) :
    PdfResult :=
  if req.type ∈ documentTypeValues then generate_pdf env req
  else .validationError typeValidationDetail

/-! Helper lemmas for evaluating the embedding. -/

theorem roundHalfEven_intCast (m : ℤ) : roundHalfEven (m : ℚ) = m := by
  unfold roundHalfEven
  rw [Int.floor_intCast]
  norm_num

theorem formatTwoDec_of_cents (q : ℚ) (m : ℤ) (h : q * 100 = (m : ℚ)) :
    formatTwoDec q =
      (if m < 0 then "-" else "") ++ Nat.repr (m.natAbs / 100) ++ "." ++
        pad2 (m.natAbs % 100) := by
  unfold formatTwoDec
  rw [h, roundHalfEven_intCast]

theorem pad2_length_of_lt (r : ℕ) (h : r < 100) : (pad2 r).length = 2 := by
  interval_cases r <;> rfl

theorem formatTwoDec_twoDecimal (q : ℚ) : twoDecimalString (formatTwoDec q) :=
  ⟨(if roundHalfEven (q * 100) < 0 then "-" else "") ++
      Nat.repr ((roundHalfEven (q * 100)).natAbs / 100),
   pad2 ((roundHalfEven (q * 100)).natAbs % 100), rfl,
   pad2_length_of_lt _ (Nat.mod_lt _ (by norm_num))⟩

theorem buildContext_totals (env : RenderEnv) (req : GeneratePdfRequest) :
    (buildContext env req).totals = effectiveTotals req := rfl

theorem buildContext_words (env : RenderEnv) (req : GeneratePdfRequest) :
    (buildContext env req).total_ttc_words =
      totalTtcWords env (effectiveTotals req) := rfl

/-! Concrete sample data used by witnesses and counterexamples. -/

def sampleCompany : CompanyInfo :=
  { raisonSociale := "ABC Company SARL", adresse := "123 Rue Example, Alger"
    telephone := "+213 555 123 456", email := none
    nif := "123456789012345", nis := "123456789012345"
    rc := "12345678", art := none }

def sampleClient : ClientInfo :=
  { nom := "Client XYZ", adresse := "456 Rue Client, Oran"
    telephone := none, nif := none, nis := none, art := none }

def sampleDocument : DocumentInfo :=
  { numero := "BL-2024-001", date := "2024-01-15", bonCommande := none
    dateLivraison := none, dateEcheance := none, conditions := none
    modePaiement := none, facture := none, motifGeneral := none }

/-- A num2words stand-in that renders every integer as its decimal
digits and never raises. -/
def intWords : ℤ → Option String := fun z => some z.repr

/-- A num2words stand-in that raises on every input. -/
def noWords : ℤ → Option String := fun _ => none

/-- A str stand-in for the fallback branch. -/
def pyStrFallback : ℚ → String := fun _ => "2.5"

/-- An environment in which every external collaborator succeeds. -/
def sampleEnv : RenderEnv :=
  { getTemplate := fun name => .ok name
    renderTemplate := fun _ _ => .ok "<html></html>"
    writePdf := fun _ => .ok [37, 80, 68, 70]
    numToWords := intWords
    parseFloat := fun _ => none
    pyStr := fun _ => "0"
    now := "15/01/2024 10:00" }

/-- An environment in which both template lookups raise. -/
def failEnv : RenderEnv :=
  { getTemplate := fun _ => .error "TemplateNotFound"
    renderTemplate := fun _ _ => .ok "<html></html>"
    writePdf := fun _ => .ok [37, 80, 68, 70]
    numToWords := intWords
    parseFloat := fun _ => none
    pyStr := fun _ => "0"
    now := "15/01/2024 10:00" }

/-- One facture line: quantite 10, prixUnitaire 100.50, tauxTVA 19; no
supplied totals. -/
def req9 : GeneratePdfRequest :=
  { type := "facture", companyInfo := sampleCompany
    clientInfo := sampleClient, documentInfo := sampleDocument
    products := [{ designation := "Produit A", quantite := 10
                   unite := "u", prixUnitaire := some (201 / 2)
                   tauxTVA := some 19, observation := none
                   motifRetour := none }]
    totals := none, logoUrl := none }

/-- Empty product list and no supplied totals. -/
def emptyReq : GeneratePdfRequest :=
  { type := "facture", companyInfo := sampleCompany
    clientInfo := sampleClient, documentInfo := sampleDocument
    products := [], totals := none, logoUrl := none }

/-- Explicitly supplied totals, together with a product line whose
values do not match them, and an unparseable totalTTC. -/
def suppliedReq : GeneratePdfRequest :=
  { type := "facture", companyInfo := sampleCompany
    clientInfo := sampleClient, documentInfo := sampleDocument
    products := [{ designation := "Produit A", quantite := 10
                   unite := "u", prixUnitaire := some (201 / 2)
                   tauxTVA := some 19, observation := none
                   motifRetour := none }]
    totals := some { totalHT := "1.00", totalTVA := "2.00"
                     totalTTC := "not-a-number" }
    logoUrl := none }

/-- A request whose type is outside the nine-value enum. -/
def invalidTypeReq : GeneratePdfRequest :=
  { type := "devis", companyInfo := sampleCompany
    clientInfo := sampleClient, documentInfo := sampleDocument
    products := [], totals := none, logoUrl := none }

/-! The claims. -/

/-- C1: for every request with a non-empty product list and no
supplied Totals, the context totals are computed: totalHT is the sum
of quantite times (prixUnitaire or 0), totalTVA the sum of quantite
times (prixUnitaire or 0) times (tauxTVA or 0) / 100, totalTTC their
sum, each formatted as a fixed two-decimal-place string. -/
theorem C1_computed_totals (env : RenderEnv) (req : GeneratePdfRequest)
    (hT : req.totals = none) (hP : req.products ≠ []) :
    (buildContext env req).totals = some
      { totalHT := formatTwoDec
          ((req.products.map fun p => p.quantite * p.prixUnitaire.getD 0).sum)
        totalTVA := formatTwoDec
          ((req.products.map fun p =>
            p.quantite * p.prixUnitaire.getD 0 * p.tauxTVA.getD 0 / 100).sum)
        totalTTC := formatTwoDec
          ((req.products.map fun p => p.quantite * p.prixUnitaire.getD 0).sum +
           (req.products.map fun p =>
            p.quantite * p.prixUnitaire.getD 0 * p.tauxTVA.getD 0 / 100).sum) } ∧
    twoDecimalString (formatTwoDec
      ((req.products.map fun p => p.quantite * p.prixUnitaire.getD 0).sum)) ∧
    twoDecimalString (formatTwoDec
      ((req.products.map fun p =>
        p.quantite * p.prixUnitaire.getD 0 * p.tauxTVA.getD 0 / 100).sum)) ∧
    twoDecimalString (formatTwoDec
      ((req.products.map fun p => p.quantite * p.prixUnitaire.getD 0).sum +
       (req.products.map fun p =>
        p.quantite * p.prixUnitaire.getD 0 * p.tauxTVA.getD 0 / 100).sum)) := by
  refine ⟨?_, formatTwoDec_twoDecimal _, formatTwoDec_twoDecimal _,
    formatTwoDec_twoDecimal _⟩
  rw [buildContext_totals]
  unfold effectiveTotals
  rw [hT]
  cases hp : req.products with
  | nil => exact absurd hp hP
  | cons p ps => simp only [computeTotals]

theorem C1_computed_totals_witness :
    (buildContext sampleEnv req9).totals = some
      { totalHT := formatTwoDec
          ((req9.products.map fun p => p.quantite * p.prixUnitaire.getD 0).sum)
        totalTVA := formatTwoDec
          ((req9.products.map fun p =>
            p.quantite * p.prixUnitaire.getD 0 * p.tauxTVA.getD 0 / 100).sum)
        totalTTC := formatTwoDec
          ((req9.products.map fun p => p.quantite * p.prixUnitaire.getD 0).sum +
           (req9.products.map fun p =>
            p.quantite * p.prixUnitaire.getD 0 * p.tauxTVA.getD 0 / 100).sum) } ∧
    twoDecimalString (formatTwoDec
      ((req9.products.map fun p => p.quantite * p.prixUnitaire.getD 0).sum)) ∧
    twoDecimalString (formatTwoDec
      ((req9.products.map fun p =>
        p.quantite * p.prixUnitaire.getD 0 * p.tauxTVA.getD 0 / 100).sum)) ∧
    twoDecimalString (formatTwoDec
      ((req9.products.map fun p => p.quantite * p.prixUnitaire.getD 0).sum +
       (req9.products.map fun p =>
        p.quantite * p.prixUnitaire.getD 0 * p.tauxTVA.getD 0 / 100).sum)) :=
  C1_computed_totals sampleEnv req9 rfl (by decide)

/-- C2 counterexample: the claim "empty product list and absent Totals
render with all three totals equal to 0.00 and the words-amount for
zero" is false at a concrete request: the context totals stay None. -/
theorem C2_counterexample :
    ¬((buildContext sampleEnv emptyReq).totals =
        some { totalHT := "0.00", totalTVA := "0.00", totalTTC := "0.00" } ∧
      (buildContext sampleEnv emptyReq).total_ttc_words =
        number_to_french_words sampleEnv.numToWords sampleEnv.pyStr 0) :=
  fun h => absurd h.1 (by decide)

/-- C2 (amended): for a request whose product list is empty and whose
Totals field is absent, no Totals value is placed in the rendering
context (totals stays None, not "0.00" strings), and the words-amount
is the literal string "zéro". -/
theorem C2_empty_products (env : RenderEnv) (req : GeneratePdfRequest)
    (hT : req.totals = none) (hP : req.products = []) :
    (buildContext env req).totals = none ∧
    (buildContext env req).total_ttc_words = "zéro" := by
  have e : effectiveTotals req = none := by
    unfold effectiveTotals
    rw [hT, hP]
  exact ⟨(buildContext_totals env req).trans e,
    (buildContext_words env req).trans (by rw [e]; rfl)⟩

theorem C2_empty_products_witness :
    (buildContext sampleEnv emptyReq).totals = none ∧
    (buildContext sampleEnv emptyReq).total_ttc_words = "zéro" :=
  C2_empty_products sampleEnv emptyReq rfl rfl

/-- C3: a request that supplies an explicit Totals value bypasses the
totals computation: the context holds exactly the supplied strings,
whatever the product list contains. -/
theorem C3_supplied_totals_verbatim (env : RenderEnv)
    (req : GeneratePdfRequest) (t : Totals) (h : req.totals = some t) :
    (buildContext env req).totals = some t := by
  rw [buildContext_totals]
  unfold effectiveTotals
  rw [h]

theorem C3_supplied_totals_verbatim_witness :
    (buildContext sampleEnv suppliedReq).totals =
      some { totalHT := "1.00", totalTVA := "2.00"
             totalTTC := "not-a-number" } :=
  C3_supplied_totals_verbatim sampleEnv suppliedReq _ rfl

/-- C4: for a non-negative amount, "dinar" is pluralized exactly when
the integer part is not 1, and the cent clause "et <words> centime[s]"
(centimes = fractional part times 100, rounded to nearest) is appended
exactly when centimes is positive, pluralizing "centime" exactly when
centimes is not 1. -/
theorem C4_plural_and_cents (numToWords : ℤ → Option String)
    (pyStr : ℚ → String) (n : ℚ) (hn : 0 ≤ n) (we wc : String)
    (he : numToWords (pyTrunc n) = some we)
    (hc : numToWords (centimesOf n) = some wc) :
    number_to_french_words numToWords pyStr n =
      we ++ " dinar" ++ (if pyTrunc n ≠ 1 then "s" else "") ++
        (if 0 < centimesOf n then
          " et " ++ wc ++ " centime" ++ (if centimesOf n ≠ 1 then "s" else "")
        else "") := by
  have h0 : 0 ≤ pyTrunc n := by
    unfold pyTrunc
    rw [if_pos hn]
    exact Int.floor_nonneg.mpr hn
  have hplural : (pyTrunc n > 1 ∨ pyTrunc n = 0) = (pyTrunc n ≠ 1) :=
    propext ⟨fun h => by omega, fun h => by omega⟩
  simp only [number_to_french_words, number_to_french_words_core]
  rw [he]
  simp only [hplural]
  by_cases hcent : 0 < centimesOf n
  · have hcs : (centimesOf n > 1) = (centimesOf n ≠ 1) :=
      propext ⟨fun h => by omega, fun h => by omega⟩
    rw [if_pos hcent, if_pos hcent, hc]
    simp only [hcs, String.append_assoc]
  · rw [if_neg hcent, if_neg hcent, String.append_empty]

theorem C4_plural_and_cents_witness :
    number_to_french_words intWords pyStrFallback ((5 : ℚ) / 2) =
      "2 dinars et 50 centimes" := by
  have h2 : pyTrunc ((5 : ℚ) / 2) = 2 := by
    unfold pyTrunc
    rw [if_pos (by norm_num : (0 : ℚ) ≤ 5 / 2), Int.floor_eq_iff]
    norm_num
  have h50 : centimesOf ((5 : ℚ) / 2) = 50 := by
    unfold centimesOf
    rw [h2, show ((5 : ℚ) / 2 - ((2 : ℤ) : ℚ)) * 100 = ((50 : ℤ) : ℚ) by
      push_cast; norm_num]
    exact roundHalfEven_intCast 50
  rw [C4_plural_and_cents intWords pyStrFallback _ (by norm_num) "2" "50"
    (by rw [h2]; rfl) (by rw [h50]; rfl)]
  rw [h2, h50]
  decide

/-- C5: whenever the words conversion fails internally, the converter
returns the original value's string form instead of propagating the
failure, so a words-conversion failure never fails the request. -/
theorem C5_fallback_on_failure (numToWords : ℤ → Option String)
    (pyStr : ℚ → String) (n : ℚ)
    (h : number_to_french_words_core numToWords n = none) :
    number_to_french_words numToWords pyStr n = pyStr n := by
  unfold number_to_french_words
  rw [h]

theorem C5_fallback_on_failure_witness :
    number_to_french_words noWords pyStrFallback ((5 : ℚ) / 2) = "2.5" :=
  C5_fallback_on_failure noWords pyStrFallback _ rfl

/-- C6: the title resolver maps each of the nine enum values to its
display title, with facture-proforma and proforma mapping to the same
title, and every string outside the nine values to "DOCUMENT". -/
theorem C6_document_titles (s : String) (hs : s ∉ documentTypeValues) :
    get_document_title "bon-livraison" = "BON DE LIVRAISON" ∧
    get_document_title "bon-commande" = "BON DE COMMANDE" ∧
    get_document_title "facture" = "FACTURE" ∧
    get_document_title "facture-proforma" = "FACTURE PROFORMA" ∧
    get_document_title "proforma" = "FACTURE PROFORMA" ∧
    get_document_title "bon-retour" = "BON DE RETOUR" ∧
    get_document_title "facture-avoir" = "FACTURE AVOIR" ∧
    get_document_title "bon-versement" = "BON DE VERSEMENT" ∧
    get_document_title "bon-reception" = "BON DE RÉCEPTION" ∧
    get_document_title "facture-proforma" = get_document_title "proforma" ∧
    get_document_title s = "DOCUMENT" := by
  refine ⟨rfl, rfl, rfl, rfl, rfl, rfl, rfl, rfl, rfl, rfl, ?_⟩
  simp only [documentTypeValues, List.mem_cons, List.not_mem_nil, or_false,
    not_or] at hs
  obtain ⟨h1, h2, h3, h4, h5, h6, h7, h8, h9⟩ := hs
  unfold get_document_title
  rw [if_neg h1, if_neg h2, if_neg h3, if_neg h4, if_neg h5, if_neg h6,
    if_neg h7, if_neg h8, if_neg h9]

theorem C6_document_titles_witness :
    get_document_title "bon-livraison" = "BON DE LIVRAISON" ∧
    get_document_title "bon-commande" = "BON DE COMMANDE" ∧
    get_document_title "facture" = "FACTURE" ∧
    get_document_title "facture-proforma" = "FACTURE PROFORMA" ∧
    get_document_title "proforma" = "FACTURE PROFORMA" ∧
    get_document_title "bon-retour" = "BON DE RETOUR" ∧
    get_document_title "facture-avoir" = "FACTURE AVOIR" ∧
    get_document_title "bon-versement" = "BON DE VERSEMENT" ∧
    get_document_title "bon-reception" = "BON DE RÉCEPTION" ∧
    get_document_title "facture-proforma" = get_document_title "proforma" ∧
    get_document_title "devis" = "DOCUMENT" :=
  C6_document_titles "devis" (by decide)

/-- C7: a request whose type lies outside the nine-value enum is
rejected by schema validation as a validation failure, independently
of the environment (so before any template lookup, totals computation
or rendering can take place). -/
theorem C7_invalid_type_rejected (env env2 : RenderEnv)
    (req : GeneratePdfRequest) (h : req.type ∉ documentTypeValues) :
    handle_generate_pdf env req = .validationError typeValidationDetail ∧
    handle_generate_pdf env req = handle_generate_pdf env2 req := by
  unfold handle_generate_pdf
  rw [if_neg h, if_neg h]
  exact ⟨rfl, rfl⟩

theorem C7_invalid_type_rejected_witness :
    handle_generate_pdf sampleEnv invalidTypeReq =
      .validationError typeValidationDetail ∧
    handle_generate_pdf sampleEnv invalidTypeReq =
      handle_generate_pdf failEnv invalidTypeReq :=
  C7_invalid_type_rejected sampleEnv failEnv invalidTypeReq (by decide)

/-- C8: whenever any stage of the handler body fails, the handler
returns the single generic 500 response whose detail embeds the
underlying failure text, and never a (partial) success response. -/
theorem C8_generic_error (env : RenderEnv) (req : GeneratePdfRequest)
    (e : String) (h : pdfPipeline env req = .error e) :
    generate_pdf env req =
      .httpError 500 ("Error generating PDF: " ++ e) ∧
    ∀ bytes mt cd, generate_pdf env req ≠ .success bytes mt cd := by
  unfold generate_pdf
  rw [h]
  exact ⟨rfl, fun _ _ _ hc => PdfResult.noConfusion hc⟩

theorem C8_generic_error_witness :
    generate_pdf failEnv req9 =
      .httpError 500 ("Error generating PDF: " ++ "TemplateNotFound") :=
  (C8_generic_error failEnv req9 "TemplateNotFound" rfl).1

/-- C9: a single line with quantite 10, prixUnitaire 100.50, tauxTVA
19 and no supplied Totals yields totalHT "1005.00", totalTVA "190.95"
and totalTTC "1195.95". -/
theorem C9_single_line_scenario :
    (buildContext sampleEnv req9).totals =
      some { totalHT := "1005.00", totalTVA := "190.95"
             totalTTC := "1195.95" } := by
  rw [buildContext_totals]
  have e1 : effectiveTotals req9 = some (computeTotals req9.products) := rfl
  rw [e1]
  have h1 : formatTwoDec
      ((req9.products.map fun p => p.quantite * p.prixUnitaire.getD 0).sum) =
      "1005.00" := by
    rw [formatTwoDec_of_cents _ 100500 (by simp [req9]; norm_num)]
    decide
  have h2 : formatTwoDec
      ((req9.products.map fun p =>
        p.quantite * p.prixUnitaire.getD 0 * p.tauxTVA.getD 0 / 100).sum) =
      "190.95" := by
    rw [formatTwoDec_of_cents _ 19095 (by simp [req9]; norm_num)]
    decide
  have h3 : formatTwoDec
      ((req9.products.map fun p => p.quantite * p.prixUnitaire.getD 0).sum +
       (req9.products.map fun p =>
        p.quantite * p.prixUnitaire.getD 0 * p.tauxTVA.getD 0 / 100).sum) =
      "1195.95" := by
    rw [formatTwoDec_of_cents _ 119595 (by simp [req9]; norm_num)]
    decide
  simp only [computeTotals]
  rw [h1, h2, h3]

/-- C10: when the supplied Totals has an unparseable totalTTC, the
words-amount is derived from the numeric value 0, not from the
supplied string. -/
theorem C10_unparseable_ttc_words (env : RenderEnv)
    (req : GeneratePdfRequest) (t : Totals) (h1 : req.totals = some t)
    (h2 : env.parseFloat t.totalTTC = none) :
    (buildContext env req).total_ttc_words =
      number_to_french_words env.numToWords env.pyStr 0 := by
  rw [buildContext_words]
  have e : effectiveTotals req = some t := by
    unfold effectiveTotals
    rw [h1]
  rw [e]
  show number_to_french_words env.numToWords env.pyStr
      ((env.parseFloat t.totalTTC).getD 0) = _
  rw [h2]
  rfl

theorem C10_unparseable_ttc_words_witness :
    (buildContext sampleEnv suppliedReq).total_ttc_words =
      number_to_french_words sampleEnv.numToWords sampleEnv.pyStr 0 :=
  C10_unparseable_ttc_words sampleEnv suppliedReq
    { totalHT := "1.00", totalTVA := "2.00", totalTTC := "not-a-number" }
    rfl rfl

end BellatPdf
